import Mathlib

/-!
# Verification of the job-progress orchestration core of `app.py`

Shallow embedding, in Lean 4, of the progress/task core of the repository:
the shared progress queue, the worker functions (encode, direct download,
uploads, merge), the server-sent-event streaming endpoint, the stop
endpoint, and the task launcher.

Conventions of the embedding:
* A Python progress dict pushed with `q.put({...})` becomes an `Event`
  record whose five optional fields mirror the five keys that occur in the
  source (`stage`, `percent`, `log`, `error`, `final_url`).
* Python floats are modelled as exact rationals (`ℚ`); all percent
  arithmetic in the source (`/`, `*`, `min`) is exact on the inputs that
  occur in this development.
* Outcomes of calls into the outside world (HTTP requests, the filesystem,
  spawned subprocesses) are inputs of the embedded functions, passed in as
  explicit environment records.  A call that can raise is modelled as an
  `Except` value; the string is Python's `str(e)` rendering of the
  exception.
* A worker function returns the list of events it pushes, in push order.
  A worker that can let an exception escape its own frame (no outermost
  `try`/`except`) returns the events pushed so far together with
  `Option String`, `some msg` meaning the exception propagated out of the
  worker thread unhandled.
-/

/-- One progress message, as pushed onto the shared `progress_queue`.
The five optional fields are exactly the keys used by `q.put` calls in
`app.py`. -/
structure Event where
  stage : Option String := none
  percent : Option ℚ := none
  log : Option String := none
  error : Option String := none
  final_url : Option String := none
deriving DecidableEq, Repr

/-- `msg.get("log") == "DONE"` — the successful-termination sentinel test
performed by the streaming endpoint. -/
def Event.isDone (e : Event) : Bool := e.log == some "DONE"

/-- `"error" in msg` — the event carries an error key. -/
def Event.isError (e : Event) : Bool := e.error.isSome

/-- A terminal event: `log == "DONE"` or an `error` key is present
(the disjunction tested at line 4113 of `app.py`). -/
def Event.isTerminal (e : Event) : Bool := e.isDone || e.isError

/-- The `DONE` sentinel event, `q.put({"log": "DONE"})`. -/
def doneEvent : Event := { log := some "DONE" }

/-- Number of `DONE` sentinels in a pushed-event sequence. -/
def countDone (es : List Event) : ℕ := (es.filter (·.isDone)).length

/-- Number of `error`-bearing events in a pushed-event sequence. -/
def countError (es : List Event) : ℕ := (es.filter (·.isError)).length

/-- Number of terminal events in a pushed-event sequence. -/
def countTerminal (es : List Event) : ℕ := (es.filter (·.isTerminal)).length

/-! ## The streaming endpoint (`progress_stream`, app.py lines 4105-4120)

The generator loops on `progress_queue.get(timeout=30)`.  Each loop
iteration either receives an event or times out (`queue.Empty`).  The
sequence of outcomes of the successive `get` calls is the input of the
embedded function. -/

/-- Outcome of one `progress_queue.get(timeout=30)` call: an event was
popped, or the 30-second timeout elapsed (`queue.Empty`). -/
inductive Pop where
  | timeout : Pop
  | ev : Event → Pop
deriving DecidableEq, Repr

/-- The bounded timeout (in seconds) passed to `progress_queue.get` by
`progress_stream`. -/
def STREAM_POP_TIMEOUT : ℕ := 30

/-- The body of `progress_stream.generate` (app.py lines 4108-4118):
pop with a bounded timeout; serialize and yield each arriving event;
break after yielding an event with `log == "DONE"` or an `error` key;
break on timeout.  The result is the list of events sent to the client,
in order. -/
def generate : List Pop → List Event
  | [] => []
  | Pop.timeout :: _ => []
  | Pop.ev e :: rest => e :: (if e.isTerminal then [] else generate rest)

/-! ## The stop endpoint (`stop_encode`, app.py lines 6049-6071) and the
task launcher (`start_task`, app.py lines 3823-3828) -/

/-- The registered external process handle: `current_process.poll() is
None` is modelled by the `alive` flag. -/
structure ProcHandle where
  alive : Bool
deriving DecidableEq, Repr

/-- The server-side state touched by `stop_encode` and `start_task`:
the process-wide `current_process` slot and the session's `task_active`
entry (`none` = key absent). -/
structure ServerState where
  current_process : Option ProcHandle := none
  task_active : Option Bool := none
deriving DecidableEq, Repr

/-- Which signal-sending call the stop endpoint performed. -/
inductive KillAction where
  | kill : KillAction
  | terminate : KillAction
  | noSignal : KillAction
deriving DecidableEq, Repr

/-- The JSON reply of `stop_encode` together with the HTTP status code. -/
structure StopResult where
  status : String
  message : String
  httpCode : ℕ
deriving DecidableEq, Repr

/-- The timeout (seconds) of the `current_process.wait` call in
`stop_encode`. -/
def STOP_WAIT_TIMEOUT : ℕ := 2

/-- `stop_encode` (app.py lines 6049-6071).  If `current_process` is set
and still alive, it calls `current_process.kill()` (a forceful kill, not
`terminate()`), waits up to 2 seconds, and in a `finally` block clears
`current_process` and pops the session's `task_active` key, then returns
a success JSON with HTTP 200.  Otherwise it returns an error JSON with
HTTP 400 and leaves the state untouched.  A `kill`/`wait` exception is
caught and printed; the `finally` block still runs.  The result records
the new state, the HTTP reply, and which signal was sent. -/
def stop_encode (s : ServerState) : ServerState × StopResult × KillAction :=
  match s.current_process with
  | some p =>
    if p.alive then
      ({ current_process := none, task_active := none },
       { status := "success", message := "Encoding process stopped.", httpCode := 200 },
       KillAction.kill)
    else
      (s, { status := "error", message := "No active encoding process to stop.",
            httpCode := 400 }, KillAction.noSignal)
  | none =>
      (s, { status := "error", message := "No active encoding process to stop.",
            httpCode := 400 }, KillAction.noSignal)

/-- `start_task` (app.py lines 3823-3828), session side effect:
`session['task_active'] = True` before the worker thread is spawned. -/
def start_task_session (s : ServerState) : ServerState :=
  { s with task_active := some true }

/-! ## Python-level helpers used by the worker embeddings -/

/-- Python string truthiness: the empty string is falsy. -/
def pyTruthy (s : String) : Bool := !(s == "")

/-- Truthiness of `dict.get(k)` for a string value: `None` and `""` are
falsy. -/
def pyTruthyOpt : Option String → Bool
  | none => false
  | some s => pyTruthy s

/-- Python `a or b` on two optional strings (used for
`data.get("id") or data.get("code")`). -/
def pyOrOpt (a b : Option String) : Option String :=
  if pyTruthyOpt a then a else b

/-- Rendering of an optional string inside an f-string: `None` prints as
`"None"`. -/
def pyStrOpt : Option String → String
  | none => "None"
  | some s => s

/-- Python `str.strip()`: drop whitespace from both ends (implemented on
the character list so that it evaluates inside the kernel). -/
def pyStrip (s : String) : String :=
  String.mk (((s.toList.dropWhile Char.isWhitespace).reverse.dropWhile
    Char.isWhitespace).reverse)

/-- Decimal value of a digit run. -/
def digitsToNat : List Char → ℕ → ℕ
  | [], acc => acc
  | c :: rest, acc => digitsToNat rest (10 * acc + (c.toNat - '0'.toNat))

/-- Python `int(s)` on decimal forms: strip whitespace, optional sign,
digits; anything else raises `ValueError` (`none` here). -/
def pyIntParse (s : String) : Option Int :=
  let cs := (pyStrip s).toList
  match cs with
  | [] => none
  | '-' :: rest =>
    if !rest.isEmpty && rest.all Char.isDigit then
      some (-(digitsToNat rest 0 : Int))
    else none
  | '+' :: rest =>
    if !rest.isEmpty && rest.all Char.isDigit then
      some ((digitsToNat rest 0 : Int))
    else none
  | _ =>
    if cs.all Char.isDigit then some ((digitsToNat cs 0 : Int)) else none

/-- Python `int(s)`; a non-numeric string raises `ValueError`. -/
def pyInt (s : String) : Except String Int :=
  match pyIntParse s with
  | some n => Except.ok n
  | none => Except.error ("invalid literal for int() with base 10: \x27" ++ s ++ "\x27")

/-- Python `s.split(sep)` for a non-empty separator, on character
lists; the fuel argument (instantiated with the input length) only makes
the recursion structural. -/
def pySplitFuel (sep : List Char) : ℕ → List Char → List Char → List (List Char)
  | 0, l, acc => [acc.reverse ++ l]
  | _ + 1, [], acc => [acc.reverse]
  | fuel + 1, c :: rest, acc =>
    if !sep.isEmpty && sep.isPrefixOf (c :: rest) then
      acc.reverse :: pySplitFuel sep fuel (rest.drop (sep.length - 1)) []
    else pySplitFuel sep fuel rest (c :: acc)

/-- Python `s.split(sep)` (non-empty separator). -/
def pySplit (s sep : String) : List String :=
  (pySplitFuel sep.toList (s.length + 1) s.toList []).map String.mk

/-- Python `s.replace(old, new)` for a non-empty pattern, on character
lists; the fuel argument (instantiated with the input length) only makes
the recursion structural. -/
def pyReplaceFuel (old new : List Char) : ℕ → List Char → List Char
  | 0, l => l
  | _ + 1, [] => []
  | fuel + 1, c :: rest =>
    if !old.isEmpty && old.isPrefixOf (c :: rest) then
      new ++ pyReplaceFuel old new fuel (rest.drop (old.length - 1))
    else c :: pyReplaceFuel old new fuel rest

/-- Python `s.replace(old, new)` (non-empty pattern). -/
def pyReplace (s old new : String) : String :=
  String.mk (pyReplaceFuel old.toList new.toList (s.length + 1) s.toList)

/-- Python `s.upper()` (ASCII). -/
def pyUpper (s : String) : String :=
  String.mk (s.toList.map Char.toUpper)

/-- Python `s.endswith(suffix)`. -/
def pyEndsWith (s suffix : String) : Bool :=
  suffix.toList.reverse.isPrefixOf s.toList.reverse

/-- Does the character list contain `needle` as a contiguous run? -/
def charsContain (needle : List Char) : List Char → Bool
  | [] => needle.isEmpty
  | c :: rest => needle.isPrefixOf (c :: rest) || charsContain needle rest

/-- Python `needle in hay` on strings. -/
def pyContains (hay needle : String) : Bool :=
  charsContain needle.toList hay.toList

/-- One hexadecimal digit, upper case. -/
def hexDigit (n : ℕ) : Char :=
  if n < 10 then Char.ofNat ('0'.toNat + n) else Char.ofNat ('A'.toNat + (n - 10))

/-- `urllib.parse.quote` on one character; ASCII input (the safe set is
the unreserved characters plus the default safe character `/`). -/
def pyQuoteChar (c : Char) : String :=
  if c.isAlphanum || c == '_' || c == '.' || c == '-' || c == '~' || c == '/' then
    String.singleton c
  else
    "%" ++ String.mk [hexDigit (c.toNat / 16 % 16), hexDigit (c.toNat % 16)]

/-- `urllib.parse.quote(s)` for ASCII strings, as applied to the upload
filename when the Gofile direct link is constructed. -/
def pyQuote (s : String) : String :=
  String.join (s.toList.map pyQuoteChar)

/-- Kind of a Python exception, as far as the `except` clauses of the
upload workers discriminate: `requests.exceptions.Timeout`,
another `requests.exceptions.RequestException`, or anything else. -/
inductive ExnKind where
  | timeout : ExnKind
  | requestError : ExnKind
  | other : ExnKind
deriving DecidableEq, Repr

/-- A raised Python exception: its dispatch kind and its `str(e)`
rendering. -/
structure PyExn where
  kind : ExnKind
  msg : String
deriving DecidableEq, Repr

/-! ## `upload_to_pixeldrain` (app.py lines 2898-2928) -/

/-- The JSON body of the Pixeldrain response: `result.get("success")`,
`result.get("id")`, `result.get("message")`. -/
structure PdJson where
  success : Bool
  id : Option String
  message : Option String
deriving DecidableEq, Repr

/-- Environment of one `upload_to_pixeldrain` call: the outcome of each
call into the outside world, in source order.  The handler is a bare
`except Exception`, so only `str(e)` matters. -/
structure PixeldrainEnv where
  open_file : Except String Unit
  post : Except String Unit
  raise_for_status : Except String Unit
  json : Except String PdJson
deriving Repr

/-- The `try` block of `upload_to_pixeldrain` (lines 2899-2924): the
events pushed, plus the exception message caught by the
`except Exception` clause, if any. -/
def upload_to_pixeldrain_try (filename : String) (env : PixeldrainEnv) :
    List Event × Option String :=
  let e0 : Event :=
    { stage := some ("Uploading \x27" ++ filename ++ "\x27 to Pixeldrain..."),
      percent := some 10 }
  match env.open_file with
  | Except.error m => ([e0], some m)
  | Except.ok _ =>
    let e1 : Event := { stage := some "Sending data...", percent := some 50 }
    match env.post with
    | Except.error m => ([e0, e1], some m)
    | Except.ok _ =>
      match env.raise_for_status with
      | Except.error m => ([e0, e1], some m)
      | Except.ok _ =>
        match env.json with
        | Except.error m => ([e0, e1], some m)
        | Except.ok j =>
          if j.success then
            let url := "https://pixeldrain.com/u/" ++ pyStrOpt j.id
            ([e0, e1,
              { stage := some "✅ Pixeldrain Upload Complete!", percent := some 100 },
              { log := some ("Success! Link: " ++ url), final_url := some url }],
             none)
          else
            ([e0, e1,
              { error := some ("Pixeldrain API error: " ++ j.message.getD "Unknown") }],
             none)

/-- `upload_to_pixeldrain` (lines 2898-2928): the `try` block, then the
`except Exception` clause turning a caught exception into an `error`
event, then the unconditional `finally: q.put({"log": "DONE"})`. -/
def upload_to_pixeldrain_events (filename : String) (env : PixeldrainEnv) :
    List Event :=
  let r := upload_to_pixeldrain_try filename env
  (r.1 ++
    (match r.2 with
     | some m => [{ error := some ("Pixeldrain upload failed: " ++ m) }]
     | none => [])) ++ [doneEvent]

/-! ## `upload_to_4stream` (app.py lines 2931-3013) -/

/-- The JSON body of the 4stream upload-server response:
`server_data.get("status")`, `server_data.get("result")`,
`server_data.get("msg")`. -/
structure FsServerJson where
  status : Option Int
  result : Option String
  msg : Option String
deriving Repr

/-- The JSON body of the 4stream upload response:
`upload_result.get("status")`, the `files` array (each entry's
`get("filecode")`), `upload_result.get("msg")`. -/
structure FsUploadJson where
  status : Option Int
  files : List (Option String)
  msg : Option String
deriving Repr

/-- Environment of one `upload_to_4stream` call: whether the API key is
configured, then the outcome of each call into the outside world, in
source order. -/
structure FourStreamEnv where
  key_configured : Bool
  server_get : Except PyExn Unit
  server_raise_for_status : Except PyExn Unit
  server_json : Except PyExn FsServerJson
  getsize : Except PyExn Unit
  open_file : Except PyExn Unit
  post : Except PyExn Unit
  post_raise_for_status : Except PyExn Unit
  post_json : Except PyExn FsUploadJson
deriving Repr

/-- Dispatch of the three `except` clauses of `upload_to_4stream`
(lines 3003-3011): `Timeout`, then `RequestException`, then `Exception`. -/
def fourstreamExnEvent (e : PyExn) : Event :=
  match e.kind with
  | ExnKind.timeout =>
      { error := some "Upload timeout - file may be too large or connection is slow" }
  | ExnKind.requestError => { error := some ("Upload request failed: " ++ e.msg) }
  | ExnKind.other => { error := some ("4stream upload failed: " ++ e.msg) }

/-- The `try` block of `upload_to_4stream` (lines 2932-3002): events
pushed, plus the exception that escaped to the `except` clauses, if any.
The two early-`return` branches push their own `error` and `DONE`
events inside the `try` block. -/
def upload_to_4stream_try (filename : String) (env : FourStreamEnv) :
    List Event × Option PyExn :=
  if !env.key_configured then
    ([{ error := some "4stream API key not configured" }, doneEvent], none)
  else
    let e0 : Event := { stage := some "Getting upload server...", percent := some 10 }
    match env.server_get with
    | Except.error e => ([e0], some e)
    | Except.ok _ =>
      match env.server_raise_for_status with
      | Except.error e => ([e0], some e)
      | Except.ok _ =>
        match env.server_json with
        | Except.error e => ([e0], some e)
        | Except.ok sj =>
          if !(sj.status == some 200) || !pyTruthyOpt sj.result then
            ([e0,
              { error := some ("Failed to get upload server: " ++
                  sj.msg.getD "Unknown error") },
              doneEvent], none)
          else
            let e1 : Event :=
              { stage := some "Got upload server, uploading file...", percent := some 30 }
            match env.getsize with
            | Except.error e => ([e0, e1], some e)
            | Except.ok _ =>
              match env.open_file with
              | Except.error e => ([e0, e1], some e)
              | Except.ok _ =>
                match env.post with
                | Except.error e => ([e0, e1], some e)
                | Except.ok _ =>
                  match env.post_raise_for_status with
                  | Except.error e => ([e0, e1], some e)
                  | Except.ok _ =>
                    match env.post_json with
                    | Except.error e => ([e0, e1], some e)
                    | Except.ok uj =>
                      if uj.status == some 200 && !uj.files.isEmpty then
                        let filecode := (uj.files.headD none)
                        let file_url :=
                          "https://up4stream.com/" ++ pyStrOpt filecode ++ ".html"
                        ([e0, e1,
                          { stage := some "✅ 4stream Upload Complete!",
                            percent := some 100 },
                          { log := some ("Success! File uploaded to 4stream: " ++ filename),
                            final_url := some file_url }], none)
                      else
                        ([e0, e1,
                          { error := some ("Upload failed: " ++
                              uj.msg.getD "Unknown error") }], none)

/-- `upload_to_4stream` (lines 2931-3013): the `try` block, the three
`except` clauses, and the unconditional `finally: q.put({"log": "DONE"})`
(which runs even on the early-`return` branches that already pushed a
`DONE`). -/
def upload_to_4stream_events (filename : String) (env : FourStreamEnv) :
    List Event :=
  let r := upload_to_4stream_try filename env
  (r.1 ++
    (match r.2 with
     | some e => [fourstreamExnEvent e]
     | none => [])) ++ [doneEvent]

/-! ## `upload_to_gofile` (app.py lines 3049-3145) -/

/-- The JSON body of the Gofile servers response: `get("status")` and
the names of `get("data", {}).get("servers")`. -/
structure GfServersJson where
  status : Option String
  servers : List String
deriving Repr

/-- The `data` member of the Gofile upload response. -/
structure GfData where
  downloadPage : Option String
  id : Option String
  code : Option String
  servers : List String
deriving Repr

/-- The JSON body of the Gofile upload response: `get("status")`, the
`json.dumps` rendering pushed as a raw log line, and the `data` member
(`none` models a missing `"data"` key, whose subscript raises
`KeyError`). -/
structure GfUploadJson where
  status : Option String
  raw : String
  data : Option GfData
deriving Repr

/-- Environment of one `upload_to_gofile` call.  `get_gofile_website_token`
never raises (it catches everything and falls back to a constant), so it
needs no environment entry.  `save_to_gofile_history` catches all its own
exceptions and pushes no events. -/
structure GofileEnv where
  token_configured : Bool
  server_get : Except PyExn Unit
  server_raise_for_status : Except PyExn Unit
  server_json : Except PyExn GfServersJson
  getsize : Except PyExn Unit
  open_file : Except PyExn Unit
  post : Except PyExn Unit
  post_raise_for_status : Except PyExn Unit
  post_json : Except PyExn GfUploadJson
deriving Repr

/-- Dispatch of the three `except` clauses of `upload_to_gofile`
(lines 3138-3143). -/
def gofileExnEvent (e : PyExn) : Event :=
  match e.kind with
  | ExnKind.timeout =>
      { error := some "Upload timeout - file may be too large or connection is slow" }
  | ExnKind.requestError => { error := some ("Upload request failed: " ++ e.msg) }
  | ExnKind.other => { error := some ("Gofile upload failed: " ++ e.msg) }

/-- The success branch of `upload_to_gofile` after `status == "ok"`
(lines 3109-3134): subscripting `upload_result["data"]["downloadPage"]`
raises `KeyError` when a key is missing; otherwise the link logs, the
history write, and the completion events follow. -/
def upload_to_gofile_ok_branch (filename upload_server : String)
    (data : Option GfData) : List Event × Option PyExn :=
  match data with
  | none => ([], some ⟨ExnKind.other, "\x27data\x27"⟩)
  | some d =>
    match d.downloadPage with
    | none => ([], some ⟨ExnKind.other, "\x27downloadPage\x27"⟩)
    | some download_page =>
      let file_id_rec := pyOrOpt d.id d.code
      let real_server := d.servers.headD upload_server
      let linkEvents :=
        if pyTruthy real_server && pyTruthyOpt file_id_rec then
          let fid := pyStrOpt file_id_rec
          let direct_link := "https://" ++ real_server ++
            ".gofile.io/download/web/" ++ fid ++ "/" ++ pyQuote filename
          [{ log := some ("Captured File ID: " ++ fid) },
           { log := some ("Constructed Gofile link: " ++ direct_link) }]
        else []
      (linkEvents ++
        [{ stage := some "✅ Gofile Upload Complete!", percent := some 100 },
         { log := some ("Success! File uploaded to Gofile: " ++ filename),
           final_url := some download_page }], none)

/-- The `try` block of `upload_to_gofile` (lines 3051-3136): events
pushed, plus the exception escaping to the `except` clauses, if any.  As
in the source, the two early-`return` branches push `error` and `DONE`
themselves. -/
def upload_to_gofile_try (filename : String) (env : GofileEnv) :
    List Event × Option PyExn :=
  if !env.token_configured then
    ([{ error := some "Gofile API token not configured" }, doneEvent], none)
  else
    let e0 : Event := { stage := some "Getting Gofile upload server...", percent := some 10 }
    match env.server_get with
    | Except.error e => ([e0], some e)
    | Except.ok _ =>
      match env.server_raise_for_status with
      | Except.error e => ([e0], some e)
      | Except.ok _ =>
        match env.server_json with
        | Except.error e => ([e0], some e)
        | Except.ok sj =>
          if !(sj.status == some "ok") || sj.servers.isEmpty then
            ([e0,
              { error := some ("Failed to get upload server: " ++
                  sj.status.getD "No servers available") },
              doneEvent], none)
          else
            let upload_server := sj.servers.headD ""
            let e1 : Event :=
              { stage := some ("Got server \x27" ++ upload_server ++
                  "\x27, uploading file..."), percent := some 30 }
            match env.getsize with
            | Except.error e => ([e0, e1], some e)
            | Except.ok _ =>
              match env.open_file with
              | Except.error e => ([e0, e1], some e)
              | Except.ok _ =>
                match env.post with
                | Except.error e => ([e0, e1], some e)
                | Except.ok _ =>
                  match env.post_raise_for_status with
                  | Except.error e => ([e0, e1], some e)
                  | Except.ok _ =>
                    match env.post_json with
                    | Except.error e => ([e0, e1], some e)
                    | Except.ok uj =>
                      let rawLog : Event :=
                        { log := some ("Gofile Raw Result: " ++ uj.raw) }
                      if uj.status == some "ok" then
                        let rest := upload_to_gofile_ok_branch filename upload_server uj.data
                        ([e0, e1, rawLog] ++ rest.1, rest.2)
                      else
                        ([e0, e1, rawLog,
                          { error := some ("Upload failed: " ++
                              uj.status.getD "Unknown error") }], none)

/-- `upload_to_gofile` (lines 3049-3145): the `try` block, the three
`except` clauses, and the unconditional `finally: q.put({"log": "DONE"})`. -/
def upload_to_gofile_events (filename : String) (env : GofileEnv) :
    List Event :=
  let r := upload_to_gofile_try filename env
  (r.1 ++
    (match r.2 with
     | some e => [gofileExnEvent e]
     | none => [])) ++ [doneEvent]

/-! ## `ffmpeg_merge_with_progress` (app.py lines 133-193)

This worker is started on a bare background thread by the
`/merge_files` route (lines 3851-3855).  It has **no** outermost
`try`/`except`: an exception raised by writing the list file, by
spawning the copy-merge process, or by the fallback re-encode run
propagates out of the worker thread.  The inner `try`/`except: pass`
only guards the `int(...)` parse of an `out_time_ms` line. -/

/-- Environment of one `ffmpeg_merge_with_progress` call, in source
order: writing `merge_list.txt`, spawning the copy-merge process, its
stdout lines, its exit code, whether the output file exists afterwards,
and the fallback re-encode run.  (The removal of the list file pushes no
events and is modelled as succeeding.) -/
structure MergeEnv where
  write_list : Except String Unit
  popen : Except String Unit
  lines : List String
  ret : Int
  output_exists : Bool
  reencode : Except String Unit
deriving Repr

/-- One stdout line of the copy-merge run (lines 147-153): if the line
contains `out_time_ms` and `int(line.split("=")[1])` parses, a
`{"stage": "Merging…"}` event is pushed; a parse or index error is
swallowed by the inner `except: pass`. -/
def merge_line_events (line : String) : List Event :=
  if pyContains line "out_time_ms" then
    match (pySplit line "=").drop 1 with
    | [] => []
    | part :: _ =>
      match pyInt part with
      | Except.ok _ => [{ stage := some "Merging…" }]
      | Except.error _ => []
  else []

/-- `ffmpeg_merge_with_progress` (lines 133-193): the events pushed and,
since the worker has no outermost handler, `some msg` when an exception
propagated out of the worker thread unhandled. -/
def ffmpeg_merge_with_progress (env : MergeEnv) : List Event × Option String :=
  match env.write_list with
  | Except.error m => ([], some m)
  | Except.ok _ =>
    match env.popen with
    | Except.error m => ([], some m)
    | Except.ok _ =>
      let runEvents := env.lines.flatMap merge_line_events
      if env.ret != 0 || !env.output_exists then
        let reEv : Event := { stage := some "Re-encoding for compatibility…" }
        match env.reencode with
        | Except.error m => (runEvents ++ [reEv], some m)
        | Except.ok _ => (runEvents ++ [reEv, doneEvent], none)
      else
        (runEvents ++ [doneEvent], none)

/-! ## The encode stdout-line parser (`encode_file`, app.py lines 3360-3376) -/

/-- Two-digit decimal value of two digit characters. -/
def twoDigits (a b : Char) : ℕ :=
  10 * (a.toNat - '0'.toNat) + (b.toNat - '0'.toNat)

/-- Match the regular expression
`time=(\d{2}):(\d{2}):(\d{2})\.(\d{2})` at the head of the character
list, returning the four captured two-digit groups. -/
def matchTimeAt : List Char → Option (ℕ × ℕ × ℕ × ℕ)
  | 't' :: 'i' :: 'm' :: 'e' :: '=' ::
    h1 :: h2 :: ':' :: m1 :: m2 :: ':' :: s1 :: s2 :: '.' :: c1 :: c2 :: _ =>
    if h1.isDigit && h2.isDigit && m1.isDigit && m2.isDigit &&
       s1.isDigit && s2.isDigit && c1.isDigit && c2.isDigit then
      some (twoDigits h1 h2, twoDigits m1 m2, twoDigits s1 s2, twoDigits c1 c2)
    else none
  | _ => none

/-- `re.search` of the time token: the leftmost position at which the
pattern matches. -/
def findTimeToken : List Char → Option (ℕ × ℕ × ℕ × ℕ)
  | [] => none
  | c :: rest =>
    match matchTimeAt (c :: rest) with
    | some r => some r
    | none => findTimeToken rest

/-- Longest digit prefix of a character list. -/
def takeDigits (cs : List Char) : List Char × List Char :=
  (cs.takeWhile Char.isDigit, cs.dropWhile Char.isDigit)

/-- Match the regular expression `VMAF score: (\d+\.\d+)` at the head of
the character list, returning the captured group. -/
def matchVmafAt (cs : List Char) : Option String :=
  match cs with
  | 'V' :: 'M' :: 'A' :: 'F' :: ' ' :: 's' :: 'c' :: 'o' :: 'r' :: 'e' :: ':' :: ' ' :: rest =>
    let d1 := takeDigits rest
    if d1.1.isEmpty then none
    else
      match d1.2 with
      | '.' :: afterDot =>
        let d2 := takeDigits afterDot
        if d2.1.isEmpty then none
        else some (String.mk (d1.1 ++ '.' :: d2.1))
      | _ => none
  | _ => none

/-- `re.search` of the VMAF-score pattern: leftmost match. -/
def findVmafScore : List Char → Option String
  | [] => none
  | c :: rest =>
    match matchVmafAt (c :: rest) with
    | some r => some r
    | none => findVmafScore rest

/-- Events pushed for one stdout line of the encode subprocess
(app.py lines 3360-3376): the raw line is always forwarded as a `log`
event; when the known total duration is positive, a matched time token
yields a percent event computed as
`min(100, ((h*3600 + m*60 + s + ms/100) / duration) * 100)`, and, when
VMAF is enabled, a matched score yields a further `log` event. -/
def encode_line_events (stage_msg : String) (duration : ℚ) (enable_vmaf : Bool)
    (line : String) : List Event :=
  { log := some (pyStrip line) } ::
  (if 0 < duration then
    (match findTimeToken line.toList with
     | some (h, m, s, ms) =>
       [{ stage := some stage_msg,
          percent := some (min 100
            ((((h : ℚ) * 3600 + (m : ℚ) * 60 + (s : ℚ) + (ms : ℚ) / 100) / duration) * 100)) }]
     | none => []) ++
    (if enable_vmaf then
      match findVmafScore line.toList with
      | some sc => [{ log := some ("VMAF Score: " ++ sc) }]
      | none => []
     else [])
   else [])

/-! ## The direct-download chunk loop
(`download_file_directly`, app.py lines 3515-3528) -/

/-- The body of the chunk loop: `downloaded_size` accumulates the chunk
lengths; whenever `total_size > 0` an unclamped percent event
`(downloaded_size / total_size) * 100` is pushed. -/
def chunkLoop (total_size : ℤ) : ℤ → List ℕ → List Event
  | _, [] => []
  | downloaded, c :: rest =>
    let downloaded := downloaded + (c : ℤ)
    (if 0 < total_size then
      [{ stage := some "Downloading...",
         percent := some (((downloaded : ℚ) / (total_size : ℚ)) * 100) }]
     else []) ++ chunkLoop total_size downloaded rest

/-- Events pushed by the direct-download chunk loop (lines 3515-3528),
with `total_size` the parsed `content-length` header (0 when absent) and
`chunks` the byte lengths of the received chunks. -/
def direct_download_chunk_events (total_size : ℤ) (chunks : List ℕ) : List Event :=
  chunkLoop total_size 0 chunks

/-! ## `encode_file` (app.py lines 3230-3399) -/

/-- The AV1 tiles parse (lines 3333-3347): `tiles.split('x')` must unpack
into exactly two parts and both must parse as ints, otherwise the
`except ValueError` clause pushes a warning `log` event.  (The computed
tile counts only shape the external command line.) -/
def tiles_warning_events (tiles : String) : List Event :=
  if pyTruthy tiles && pyContains tiles "x" then
    match pySplit tiles "x" with
    | [rows_str, cols_str] =>
      match pyInt rows_str, pyInt cols_str with
      | Except.ok _, Except.ok _ => []
      | _, _ =>
        [{ log := some ("Warning: Could not parse tiles \x27" ++ tiles ++ "\x27. Ignoring.") }]
    | _ =>
      [{ log := some ("Warning: Could not parse tiles \x27" ++ tiles ++ "\x27. Ignoring.") }]
  else []

/-- How the `try` block of a worker ended: fell through to the code after
(`proceed`), hit an early `return` (`earlyReturn`), or raised an
exception that the worker's outer `except Exception` clause will catch
(`raised`).  Each carries the events pushed so far. -/
inductive BodyOut where
  | proceed : List Event → BodyOut
  | earlyReturn : List Event → BodyOut
  | raised : List Event → String → BodyOut

/-- Environment of one `encode_file` call: the probe results, the
outcomes of the filesystem/subprocess calls in source order, the encode
subprocess's stdout lines and exit code, and the environments of the
chained upload helpers. -/
structure EncodeEnv where
  is_media : Bool
  duration : ℚ
  copy_file : Except String Unit
  pass1 : Except String Unit
  audio_channels : Except String Unit
  popen : Except String Unit
  stdout_none : Bool
  lines : List String
  returncode : Int
  pd : PixeldrainEnv
  fs : FourStreamEnv
  gf : GofileEnv

/-- The `try` block of `encode_file` up to the upload chain
(lines 3269-3387).  Parameters that only shape the external ffmpeg
command line (`preset`, `fps`, `scale`, `aq_mode`, `variance_boost`) are
omitted: they push no events and raise nothing.  The path computation
before the `try` (lines 3231-3268) pushes no events. -/
def encode_file_main (codec pass_mode bitrate crf audio_bitrate : String)
    (force_stereo : Bool) (tiles : String) (enable_vmaf : Bool)
    (env : EncodeEnv) : BodyOut :=
  let initEv : Event := { stage := some "Initializing encoding...", percent := some 0 }
  if !env.is_media then
    BodyOut.earlyReturn [initEv, { error := some "File type cannot be encoded." }]
  else if codec == "none" then
    match env.copy_file with
    | Except.error m => BodyOut.raised [initEv] m
    | Except.ok _ =>
      BodyOut.proceed [initEv, { stage := some "✅ Copied!", percent := some 100 }]
  else
    let stage_msg := "Encoding to " ++ pyUpper codec ++ "..."
    let es0 := [initEv, { stage := some stage_msg, percent := some 0 }]
    let base_codec := pyReplace codec "_copy_audio" ""
    -- video options (lines 3288-3316)
    let videoStep : BodyOut :=
      if codec == "copy_video" then BodyOut.proceed es0
      else if pass_mode == "2-pass" then
        let bitrate_val : Except String Int :=
          if pyTruthy bitrate && pyTruthy (pyStrip bitrate) then pyInt bitrate
          else Except.ok 0
        match bitrate_val with
        | Except.error m => BodyOut.raised es0 m
        | Except.ok v =>
          if v < 100 then
            BodyOut.earlyReturn (es0 ++ [{ error := some "Bitrate required for 2-pass." }])
          else
            match env.pass1 with
            | Except.error m => BodyOut.raised es0 m
            | Except.ok _ => BodyOut.proceed es0
      else
        let crf_val : Except String Int :=
          if pyTruthy crf then pyInt crf
          else Except.ok (if base_codec == "h265" then 28 else 24)
        match crf_val with
        | Except.error m => BodyOut.raised es0 m
        | Except.ok _ => BodyOut.proceed es0
    match videoStep with
    | BodyOut.earlyReturn es => BodyOut.earlyReturn es
    | BodyOut.raised es m => BodyOut.raised es m
    | BodyOut.proceed es0 =>
      -- audio options (lines 3317-3327)
      let audioStep : BodyOut :=
        if pyEndsWith codec "_copy_audio" then BodyOut.proceed es0
        else
          let audio_val : Except String Int :=
            if pyTruthy audio_bitrate then pyInt audio_bitrate else Except.ok 96
          match audio_val with
          | Except.error m => BodyOut.raised es0 m
          | Except.ok _ =>
            if force_stereo then BodyOut.proceed es0
            else
              match env.audio_channels with
              | Except.error m => BodyOut.raised es0 m
              | Except.ok _ => BodyOut.proceed es0
      match audioStep with
      | BodyOut.earlyReturn es => BodyOut.earlyReturn es
      | BodyOut.raised es m => BodyOut.raised es m
      | BodyOut.proceed es0 =>
        -- AV1 tiles (lines 3328-3348)
        let es1 := es0 ++
          (if base_codec == "av1" && !(codec == "copy_video") then
            tiles_warning_events tiles
           else [])
        -- spawn and stream the encode subprocess (lines 3352-3387)
        match env.popen with
        | Except.error m => BodyOut.raised es1 m
        | Except.ok _ =>
          if env.stdout_none then BodyOut.raised es1 "Process stdout is None"
          else
            let es2 := es1 ++
              env.lines.flatMap (encode_line_events stage_msg env.duration enable_vmaf)
            if env.returncode != 0 then
              BodyOut.earlyReturn (es2 ++ [{ error := some "Encoding process terminated." }])
            else
              BodyOut.proceed (es2 ++
                [{ stage := some "✅ Done!", percent := some 100,
                   log := some (pyUpper codec ++ " encoding complete.") }])

/-- The chained upload calls of `encode_file` (lines 3388-3393):
`if upload_pixeldrain: … elif upload_4stream: …` followed by a separate
`if upload_gofile: …`.  `safe_output` is the output basename passed to
the helpers. -/
def encode_file_chain (upload_pixeldrain upload_4stream upload_gofile : Bool)
    (safe_output : String) (env : EncodeEnv) : List Event :=
  (if upload_pixeldrain then upload_to_pixeldrain_events safe_output env.pd
   else if upload_4stream then upload_to_4stream_events safe_output env.fs
   else []) ++
  (if upload_gofile then upload_to_gofile_events safe_output env.gf else [])

/-- `encode_file` (lines 3230-3399): the `try` body, the upload chain on
fall-through, the `except Exception` clause turning a caught exception
into an `error` event, and the `finally` block that pushes the `DONE`
sentinel only when no upload flag is set. -/
def encode_file_events (codec pass_mode bitrate crf audio_bitrate : String)
    (force_stereo : Bool) (tiles : String) (enable_vmaf : Bool)
    (upload_pixeldrain upload_4stream upload_gofile : Bool)
    (safe_output : String) (env : EncodeEnv) : List Event :=
  (match encode_file_main codec pass_mode bitrate crf audio_bitrate
      force_stereo tiles enable_vmaf env with
   | BodyOut.proceed es =>
     es ++ encode_file_chain upload_pixeldrain upload_4stream upload_gofile safe_output env
   | BodyOut.earlyReturn es => es
   | BodyOut.raised es m => es ++ [{ error := some m }]) ++
  (if upload_pixeldrain || upload_4stream || upload_gofile then [] else [doneEvent])

/-! ## `download_file_directly` (app.py lines 3402-3624) -/

/-- How the nested download attempt (redirect loop, Gofile token logic,
fallback credentials, lines 3431-3605) ended: a successful download with
the parsed `content-length`, the received chunk sizes and the computed
target names; an `HTTPError` escaping with its status code; or any other
exception escaping. -/
inductive DirectOutcome where
  | ok : ℤ → List ℕ → String → String → DirectOutcome
  | httpError : ℤ → String → DirectOutcome
  | raised : String → DirectOutcome

/-- Environment of one `download_file_directly` call.  `attempt_events`
are the events pushed by the connection/redirect/fallback-credential
machinery before the outcome is decided (`log` lines such as
`Connecting to …`, lines 3444-3551, and, on the failure outcomes, the
percent events of a partially completed chunk loop); they are determined
by external HTTP traffic.  On the `ok` outcome the chunk loop itself is
modelled by `direct_download_chunk_events`. -/
structure DirectEnv where
  attempt_events : List Event
  outcome : DirectOutcome
  pd : PixeldrainEnv
  gf : GofileEnv

/-- `download_file_directly` (lines 3402-3624): initial stage event,
optional authentication log, the download attempt, then on success the
completion stage and the chained uploads (each guarded by its flag and
the truthiness of `final_path`/`safe_name`), the two `except` clauses,
and the `finally` block that pushes `DONE` only when neither upload flag
is set. -/
def download_file_directly_events (username password : String)
    (upload_pixeldrain_direct upload_gofile_direct : Bool)
    (env : DirectEnv) : List Event :=
  let fin : List Event :=
    if upload_pixeldrain_direct || upload_gofile_direct then [] else [doneEvent]
  let es0 := { stage := some "Starting direct download...", percent := some 0 } ::
    (if pyTruthy username || pyTruthy password then
      [{ log := some ("Using authentication: username=" ++ username) }]
     else []) ++
    env.attempt_events
  match env.outcome with
  | DirectOutcome.ok total_size chunks final_path safe_name =>
    es0 ++ direct_download_chunk_events total_size chunks ++
    [{ stage := some "✅ Download complete!", percent := some 100 }] ++
    (if upload_pixeldrain_direct && pyTruthy final_path && pyTruthy safe_name then
      upload_to_pixeldrain_events safe_name env.pd
     else []) ++
    (if upload_gofile_direct && pyTruthy final_path && pyTruthy safe_name then
      upload_to_gofile_events safe_name env.gf
     else []) ++ fin
  | DirectOutcome.httpError status msg =>
    es0 ++
    [if status == 401 then
      { error := some "Authentication failed (401). All credential options failed. Please check the URL and provide correct credentials." }
     else { error := some ("Direct download failed: " ++ msg) }] ++ fin
  | DirectOutcome.raised msg =>
    es0 ++ [{ error := some ("Direct download failed: " ++ msg) }] ++ fin

/-! ## Queue-level runs

The shared `progress_queue` is a FIFO; a worker run maps the queue's
prior content to its content afterwards.  `encode_file`,
`download_file_directly`, `download_and_convert` and `manual_merge_worker`
begin their `try` blocks with `while not q.empty(): q.get()`; the bare
upload workers (started directly by routes such as `upload_direct`,
app.py lines 4123-4142) do not. -/

/-- `while not q.empty(): q.get()` — discard everything in the queue. -/
def drainQueue : List Event → List Event
  | [] => []
  | _ :: rest => drainQueue rest

/-- Queue content after a full `encode_file` run started with `init`
already in the queue: the drain loop (lines 3270-3271) runs first. -/
def encode_file_run (init : List Event)
    (codec pass_mode bitrate crf audio_bitrate : String)
    (force_stereo : Bool) (tiles : String) (enable_vmaf : Bool)
    (upload_pixeldrain upload_4stream upload_gofile : Bool)
    (safe_output : String) (env : EncodeEnv) : List Event :=
  drainQueue init ++
    encode_file_events codec pass_mode bitrate crf audio_bitrate force_stereo
      tiles enable_vmaf upload_pixeldrain upload_4stream upload_gofile safe_output env

/-- Queue content after a full `download_file_directly` run started with
`init` already in the queue: the drain loop (lines 3410-3411) runs
first. -/
def download_file_directly_run (init : List Event) (username password : String)
    (upload_pixeldrain_direct upload_gofile_direct : Bool)
    (env : DirectEnv) : List Event :=
  drainQueue init ++
    download_file_directly_events username password
      upload_pixeldrain_direct upload_gofile_direct env

/-- Queue content after a full `upload_to_pixeldrain` run (as started by
the `/upload_direct` route, lines 4123-4142) with `init` already in the
queue: this worker performs no drain, so the stale events stay ahead of
its own. -/
def upload_to_pixeldrain_run (init : List Event) (filename : String)
    (env : PixeldrainEnv) : List Event :=
  init ++ upload_to_pixeldrain_events filename env

/-! ## Derived notions and concrete environments used in the statements -/

/-- The prefix of a pushed-event sequence up to and including its first
terminal event — exactly the part of a worker's output that the single
stream reader consumes before closing. -/
def upToFirstTerminal : List Event → List Event
  | [] => []
  | e :: rest => e :: (if e.isTerminal then [] else upToFirstTerminal rest)

/-- A `upload_to_4stream` invocation with no API key configured
(the remaining fields are never reached). -/
def fsNoKeyEnv : FourStreamEnv :=
  { key_configured := false
    server_get := Except.ok ()
    server_raise_for_status := Except.ok ()
    server_json := Except.ok { status := some 200, result := some "srv", msg := none }
    getsize := Except.ok ()
    open_file := Except.ok ()
    post := Except.ok ()
    post_raise_for_status := Except.ok ()
    post_json := Except.ok { status := some 200, files := [some "fc"], msg := none } }

/-- A merge invocation in which spawning the copy-merge ffmpeg process
raises `FileNotFoundError` (the binary resolution at line 126 falls back
to the bare command name when no install is found, with the comment
"will fail at runtime with useful error"). -/
def mergeSpawnFailEnv : MergeEnv :=
  { write_list := Except.ok ()
    popen := Except.error "[Errno 2] No such file or directory: \x27ffmpeg\x27"
    lines := []
    ret := 1
    output_exists := false
    reencode := Except.ok () }

/-- A fully successful Pixeldrain upload environment. -/
def pdOkEnv : PixeldrainEnv :=
  { open_file := Except.ok ()
    post := Except.ok ()
    raise_for_status := Except.ok ()
    json := Except.ok { success := true, id := some "abc123", message := none } }

/-- A Pixeldrain upload environment in which the POST raises. -/
def pdPostRaiseEnv : PixeldrainEnv :=
  { open_file := Except.ok ()
    post := Except.error "Connection reset by peer"
    raise_for_status := Except.ok ()
    json := Except.ok { success := true, id := some "abc123", message := none } }

/-- A fully successful Gofile upload environment. -/
def gfOkEnv : GofileEnv :=
  { token_configured := true
    server_get := Except.ok ()
    server_raise_for_status := Except.ok ()
    server_json := Except.ok { status := some "ok", servers := ["store1"] }
    getsize := Except.ok ()
    open_file := Except.ok ()
    post := Except.ok ()
    post_raise_for_status := Except.ok ()
    post_json := Except.ok
      { status := some "ok", raw := "\x7b\x7d",
        data := some { downloadPage := some "https://gofile.io/d/abc",
                       id := some "uuid1", code := none, servers := ["store3"] } } }

/-- A stale event left in the shared queue by a previous task. -/
def staleEvent : Event :=
  { stage := some "stale stage from a previous task", percent := some 42 }

/-- The `encode_file` environment of the chained counterexample: the
primary operation (codec `none`, a plain copy) succeeds and both the
Pixeldrain and the Gofile upload succeed. -/
def encodeChainOkEnv : EncodeEnv :=
  { is_media := true
    duration := 10
    copy_file := Except.ok ()
    pass1 := Except.ok ()
    audio_channels := Except.ok ()
    popen := Except.ok ()
    stdout_none := false
    lines := []
    returncode := 0
    pd := pdOkEnv
    fs := fsNoKeyEnv
    gf := gfOkEnv }

/-- A successful Pixeldrain environment with symbolic response fields. -/
def pdSuccessEnv (fid msg : Option String) : PixeldrainEnv :=
  { open_file := Except.ok ()
    post := Except.ok ()
    raise_for_status := Except.ok ()
    json := Except.ok { success := true, id := fid, message := msg } }

/-- An `encode_file` invocation whose primary encode succeeds (exit code
0 after streaming `lines`) with exactly one upload flag set
(`upload_pixeldrain`), the upload succeeding. -/
def encodeSingleUploadRun (duration : ℚ) (lines : List String)
    (fid msg : Option String) (fsE : FourStreamEnv) (gfE : GofileEnv) : List Event :=
  encode_file_events "h265" "crf" "" "" "" true "" false
    true false false "out.mkv"
    { is_media := true, duration := duration, copy_file := Except.ok (),
      pass1 := Except.ok (), audio_channels := Except.ok (),
      popen := Except.ok (), stdout_none := false, lines := lines,
      returncode := 0, pd := pdSuccessEnv fid msg, fs := fsE, gf := gfE }

/-- A `download_file_directly` invocation whose download succeeds with
exactly one upload flag set (`upload_pixeldrain_direct`), the upload
succeeding. -/
def directSingleUploadRun (attempt : List Event) (total : ℤ) (chunks : List ℕ)
    (fid msg : Option String) (gfE : GofileEnv) : List Event :=
  download_file_directly_events "" "" true false
    { attempt_events := attempt,
      outcome := DirectOutcome.ok total chunks "d.bin" "d.bin",
      pd := pdSuccessEnv fid msg, gf := gfE }

/-! ## Helper lemmas -/

theorem drainQueue_eq_nil : ∀ l : List Event, drainQueue l = []
  | [] => rfl
  | _ :: rest => drainQueue_eq_nil rest

theorem countDone_append (a b : List Event) :
    countDone (a ++ b) = countDone a + countDone b := by
  simp [countDone, List.filter_append]

theorem countError_append (a b : List Event) :
    countError (a ++ b) = countError a + countError b := by
  simp [countError, List.filter_append]

theorem countTerminal_append (a b : List Event) :
    countTerminal (a ++ b) = countTerminal a + countTerminal b := by
  simp [countTerminal, List.filter_append]

theorem doneEvent_isTerminal : doneEvent.isTerminal = true := by decide

theorem countTerminal_pos_concat_done (es : List Event) :
    1 ≤ countTerminal (es ++ [doneEvent]) := by
  rw [countTerminal_append]
  have : countTerminal [doneEvent] = 1 := by decide
  omega

theorem upToFirstTerminal_count (es : List Event)
    (h : 1 ≤ countTerminal es) : countTerminal (upToFirstTerminal es) = 1 := by
  induction es with
  | nil => simp [countTerminal] at h
  | cons e rest ih =>
    by_cases ht : e.isTerminal
    · simp [upToFirstTerminal, ht, countTerminal]
    · have hrest : 1 ≤ countTerminal rest := by
        simpa [countTerminal, List.filter_cons, ht] using h
      simp only [upToFirstTerminal, if_neg ht]
      simpa [countTerminal, List.filter_cons, ht] using ih hrest

theorem countTerminal_eq_zero_of_nonterminal (es : List Event)
    (h : ∀ e ∈ es, e.isTerminal = false) : countTerminal es = 0 := by
  simp only [countTerminal, List.length_eq_zero]
  exact List.filter_eq_nil_iff.mpr (fun e he => by simp [h e he])

theorem isDone_eq_false_of_nonterminal {e : Event}
    (h : e.isTerminal = false) : e.isDone = false := by
  have := h
  unfold Event.isTerminal at this
  exact (Bool.or_eq_false_iff.mp this).1

theorem isError_eq_false_of_nonterminal {e : Event}
    (h : e.isTerminal = false) : e.isError = false := by
  have := h
  unfold Event.isTerminal at this
  exact (Bool.or_eq_false_iff.mp this).2

theorem countDone_eq_zero_of_nonterminal (es : List Event)
    (h : ∀ e ∈ es, e.isTerminal = false) : countDone es = 0 := by
  simp only [countDone, List.length_eq_zero]
  exact List.filter_eq_nil_iff.mpr
    (fun e he => by simp [isDone_eq_false_of_nonterminal (h e he)])

theorem countError_eq_zero_of_nonterminal (es : List Event)
    (h : ∀ e ∈ es, e.isTerminal = false) : countError es = 0 := by
  simp only [countError, List.length_eq_zero]
  exact List.filter_eq_nil_iff.mpr
    (fun e he => by simp [isError_eq_false_of_nonterminal (h e he)])

/-- A string strictly longer than 4 characters is not the `"DONE"`
sentinel. -/
theorem append_ne_done (a b : String) (h : 4 < a.length) : a ++ b ≠ "DONE" := by
  intro hc
  have := congrArg String.length hc
  rw [String.length_append] at this
  have h4 : ("DONE" : String).length = 4 := rfl
  rw [h4] at this
  omega

theorem encode_line_events_nonterminal (st : String) (d : ℚ) (l : String)
    (h : ¬(pyStrip l = "DONE")) :
    ∀ e ∈ encode_line_events st d false l, e.isTerminal = false := by
  intro e he
  unfold encode_line_events at he
  rcases List.mem_cons.mp he with h1 | h2
  · subst h1
    have hne : (some (pyStrip l) == some "DONE") = false := by
      rw [beq_eq_false_iff_ne]
      intro hc
      exact h (Option.some.inj hc)
    simp [Event.isTerminal, Event.isDone, Event.isError, hne]
  · by_cases hd : (0 : ℚ) < d
    · rw [if_pos hd] at h2
      simp only [Bool.false_eq_true, if_false, List.append_nil] at h2
      cases hma : findTimeToken l.toList with
      | none => rw [hma] at h2; simp at h2
      | some r =>
        rw [hma] at h2
        obtain ⟨hh, hm, hs, hcc⟩ := r
        simp only [List.mem_singleton] at h2
        subst h2
        simp [Event.isTerminal, Event.isDone, Event.isError]
    · rw [if_neg hd] at h2
      simp at h2

theorem chunkLoop_nonterminal (total : ℤ) :
    ∀ (acc : ℤ) (chunks : List ℕ), ∀ e ∈ chunkLoop total acc chunks,
      e.isTerminal = false := by
  intro acc chunks
  induction chunks generalizing acc with
  | nil => intro e he; simp [chunkLoop] at he
  | cons c rest ih =>
    intro e he
    unfold chunkLoop at he
    rcases List.mem_append.mp he with h1 | h2
    · by_cases hp : (0 : ℤ) < total
      · rw [if_pos hp] at h1
        simp only [List.mem_singleton] at h1
        subst h1
        simp [Event.isTerminal, Event.isDone, Event.isError]
      · rw [if_neg hp] at h1
        simp at h1
    · exact ih _ e h2

/-! ## Claim theorems -/

/-- C1, counterexample: `upload_to_4stream` invoked with no API key
configured pushes an `error` event, a `DONE` (the early `return` at
lines 2934-2936), and a second `DONE` (the `finally` block): three
terminal events — both an `error` and a `DONE`, and the `DONE`
duplicated — where the claim demands exactly one. -/
theorem C1_counterexample :
    countTerminal (upload_to_4stream_events "f.bin" fsNoKeyEnv) = 3 ∧
    countDone (upload_to_4stream_events "f.bin" fsNoKeyEnv) = 2 ∧
    countError (upload_to_4stream_events "f.bin" fsNoKeyEnv) = 1 := by
  refine ⟨by decide, by decide, by decide⟩

/-- C1, amended: every invocation of the upload workers pushes at least
one terminal event (the `finally` block guarantees a trailing `DONE`),
and the prefix up to and including the first terminal event — the part
the single stream reader consumes before closing — contains exactly one
terminal event.  The full pushed sequence may contain more: an `error`
is followed by the `finally` `DONE`, and two early-`return` branches of
`upload_to_4stream` push `DONE` twice. -/
theorem C1_first_terminal_unique (filename : String)
    (envp : PixeldrainEnv) (envf : FourStreamEnv) :
    (1 ≤ countTerminal (upload_to_pixeldrain_events filename envp) ∧
      countTerminal (upToFirstTerminal (upload_to_pixeldrain_events filename envp)) = 1) ∧
    (1 ≤ countTerminal (upload_to_4stream_events filename envf) ∧
      countTerminal (upToFirstTerminal (upload_to_4stream_events filename envf)) = 1) := by
  have h1 : 1 ≤ countTerminal (upload_to_pixeldrain_events filename envp) := by
    unfold upload_to_pixeldrain_events
    exact countTerminal_pos_concat_done _
  have h2 : 1 ≤ countTerminal (upload_to_4stream_events filename envf) := by
    unfold upload_to_4stream_events
    exact countTerminal_pos_concat_done _
  exact ⟨⟨h1, upToFirstTerminal_count _ h1⟩, ⟨h2, upToFirstTerminal_count _ h2⟩⟩

/-- C2: `ffmpeg_merge_with_progress` has no outermost exception handler;
when spawning the copy-merge process raises (for instance because the
encoder binary was not found, the very case the binary-resolution
fallback at line 126 anticipates), the exception propagates out of the
worker thread and no event — in particular no terminal event — is ever
pushed, so the stream hangs until the reader's timeout. -/
theorem C2_merge_exception_escapes :
    (ffmpeg_merge_with_progress mergeSpawnFailEnv).2 =
      some "[Errno 2] No such file or directory: \x27ffmpeg\x27" ∧
    (ffmpeg_merge_with_progress mergeSpawnFailEnv).1 = [] ∧
    countTerminal (ffmpeg_merge_with_progress mergeSpawnFailEnv).1 = 0 :=
  ⟨rfl, rfl, rfl⟩

/-- C4, counterexample: the `/upload_direct` route starts
`upload_to_pixeldrain`, which performs no drain; a stale event left in
the shared queue by a previous task is the first event the new task's
stream delivers. -/
theorem C4_counterexample :
    (generate ((upload_to_pixeldrain_run [staleEvent] "f.bin" pdOkEnv).map Pop.ev)).head? =
      some staleEvent := by
  decide

/-- C4, amended: the drain of stale events is performed by the
download/encode workers themselves at the top of their `try` blocks, not
by the task launcher; their queue-level runs are therefore independent
of the stale content.  The bare upload workers started directly by
routes (such as `upload_to_pixeldrain` from `/upload_direct`) do not
drain, and the stale events stay ahead of theirs. -/
theorem C4_drain_location :
    (∀ (init : List Event) (codec pass_mode bitrate crf audio_bitrate : String)
       (force_stereo : Bool) (tiles : String) (enable_vmaf : Bool)
       (up sf sg : Bool) (safe_output : String) (env : EncodeEnv),
       encode_file_run init codec pass_mode bitrate crf audio_bitrate force_stereo
         tiles enable_vmaf up sf sg safe_output env =
       encode_file_events codec pass_mode bitrate crf audio_bitrate force_stereo
         tiles enable_vmaf up sf sg safe_output env) ∧
    (∀ (init : List Event) (username password : String) (up ug : Bool)
       (env : DirectEnv),
       download_file_directly_run init username password up ug env =
       download_file_directly_events username password up ug env) ∧
    (∀ (init : List Event) (filename : String) (env : PixeldrainEnv),
       upload_to_pixeldrain_run init filename env =
       init ++ upload_to_pixeldrain_events filename env) := by
  refine ⟨?_, ?_, ?_⟩ <;> intros <;>
    simp [encode_file_run, download_file_directly_run, upload_to_pixeldrain_run,
      drainQueue_eq_nil]

/-- C6: with a live process handle registered, the stop endpoint sends
the forceful `kill` (not `terminate`), waits with a 2-second bound,
clears the handle, answers success with HTTP 200, and the immediately
following stop call answers the "nothing to stop" failure. -/
theorem C6_stop_kills_and_clears (s : ServerState) (p : ProcHandle)
    (hreg : s.current_process = some p) (halive : p.alive = true) :
    (stop_encode s).2.2 = KillAction.kill ∧
    STOP_WAIT_TIMEOUT = 2 ∧
    (stop_encode s).2.1 =
      { status := "success", message := "Encoding process stopped.", httpCode := 200 } ∧
    (stop_encode s).1.current_process = none ∧
    (stop_encode (stop_encode s).1).2.1 =
      { status := "error", message := "No active encoding process to stop.",
        httpCode := 400 } := by
  simp [stop_encode, hreg, halive, STOP_WAIT_TIMEOUT]

/-- C6, witness. -/
theorem C6_stop_kills_and_clears_witness :
    ((⟨some ⟨true⟩, some true⟩ : ServerState).current_process = some ⟨true⟩ ∧
      (⟨true⟩ : ProcHandle).alive = true) ∧
    ((stop_encode ⟨some ⟨true⟩, some true⟩).2.2 = KillAction.kill ∧
      STOP_WAIT_TIMEOUT = 2 ∧
      (stop_encode ⟨some ⟨true⟩, some true⟩).2.1 =
        { status := "success", message := "Encoding process stopped.", httpCode := 200 } ∧
      (stop_encode ⟨some ⟨true⟩, some true⟩).1.current_process = none ∧
      (stop_encode (stop_encode ⟨some ⟨true⟩, some true⟩).1).2.1 =
        { status := "error", message := "No active encoding process to stop.",
          httpCode := 400 }) :=
  ⟨⟨rfl, rfl⟩, C6_stop_kills_and_clears ⟨some ⟨true⟩, some true⟩ ⟨true⟩ rfl rfl⟩

/-- C7: with no live process registered — the handle slot empty, or the
process already exited — the stop endpoint answers the "nothing to stop"
failure with HTTP 400, performs no signal, and leaves the state
untouched. -/
theorem C7_stop_nothing_to_stop (s : ServerState)
    (h : s.current_process = none ∨
      ∃ p, s.current_process = some p ∧ p.alive = false) :
    stop_encode s =
      (s, { status := "error", message := "No active encoding process to stop.",
            httpCode := 400 }, KillAction.noSignal) := by
  rcases h with h | ⟨p, hp, hal⟩
  · simp [stop_encode, h]
  · simp [stop_encode, hp, hal]

/-- C7, witness. -/
theorem C7_stop_nothing_to_stop_witness :
    ((⟨none, none⟩ : ServerState).current_process = none ∨
      ∃ p, (⟨none, none⟩ : ServerState).current_process = some p ∧ p.alive = false) ∧
    stop_encode ⟨none, none⟩ =
      (⟨none, none⟩,
       { status := "error",
         message := "No active encoding process to stop.", httpCode := 400 },
       KillAction.noSignal) :=
  ⟨Or.inl rfl, C7_stop_nothing_to_stop ⟨none, none⟩ (Or.inl rfl)⟩

/-- C8: the streaming endpoint pops with a 30-second bound; a timeout
closes the stream with nothing more sent; a non-terminal event is sent
and the loop continues; a terminal event (`DONE` or `error`) is sent and
the stream closes immediately after it. -/
theorem C8_stream_loop :
    STREAM_POP_TIMEOUT = 30 ∧
    (∀ rest : List Pop, generate (Pop.timeout :: rest) = []) ∧
    (∀ (e : Event) (rest : List Pop), e.isTerminal = false →
      generate (Pop.ev e :: rest) = e :: generate rest) ∧
    (∀ (e : Event) (rest : List Pop), e.isTerminal = true →
      generate (Pop.ev e :: rest) = [e]) := by
  refine ⟨rfl, fun _ => rfl, ?_, ?_⟩
  · intro e rest h; simp [generate, h]
  · intro e rest h; simp [generate, h]

/-- C8, witness. -/
theorem C8_stream_loop_witness :
    (doneEvent.isTerminal = true ∧ generate [Pop.ev doneEvent] = [doneEvent]) ∧
    ((({ stage := some "Encoding..." } : Event).isTerminal = false) ∧
      generate [Pop.ev { stage := some "Encoding..." }, Pop.timeout] =
        { stage := some "Encoding..." } :: generate [Pop.timeout]) :=
  ⟨⟨by decide, C8_stream_loop.2.2.2 doneEvent [] (by decide)⟩,
   ⟨by decide, C8_stream_loop.2.2.1 { stage := some "Encoding..." } [Pop.timeout] (by decide)⟩⟩

/-- C9: with a positive known duration, a stdout line in which the
`time=HH:MM:SS.cc` token is found yields a progress event whose percent
is `min(100, (3600*HH + 60*MM + SS + cc/100) / total_duration * 100)` —
the spec's formula, capped at 100. -/
theorem C9_time_token_percent (st : String) (d : ℚ) (vm : Bool) (line : String)
    (h m s cc : ℕ) (hd : 0 < d)
    (hf : findTimeToken line.toList = some (h, m, s, cc)) :
    ({ stage := some st,
       percent := some (min 100
         (((3600 * (h : ℚ) + 60 * (m : ℚ) + (s : ℚ) + (cc : ℚ) / 100) / d) * 100)) } : Event)
      ∈ encode_line_events st d vm line := by
  have heq : ((3600 * (h : ℚ) + 60 * (m : ℚ) + (s : ℚ) + (cc : ℚ) / 100) / d) * 100 =
      (((h : ℚ) * 3600 + (m : ℚ) * 60 + (s : ℚ) + (cc : ℚ) / 100) / d) * 100 := by
    ring
  simp only [encode_line_events, hf, if_pos hd, heq]
  exact List.mem_cons_of_mem _ (List.mem_append_left _ (List.mem_singleton.mpr rfl))

/-- C9, witness: the line `time=00:00:05.00` against duration 10 yields
percent 50. -/
theorem C9_time_token_percent_witness :
    ((0 : ℚ) < 10 ∧
      findTimeToken ("frame=1 time=00:00:05.00 bitrate=1k").toList = some (0, 0, 5, 0)) ∧
    ({ stage := some "Encoding to H265...",
       percent := some (min 100
         (((3600 * ((0 : ℕ) : ℚ) + 60 * ((0 : ℕ) : ℚ) + ((5 : ℕ) : ℚ) +
            ((0 : ℕ) : ℚ) / 100) / 10) * 100)) } : Event)
      ∈ encode_line_events "Encoding to H265..." 10 false
          "frame=1 time=00:00:05.00 bitrate=1k" :=
  ⟨⟨by norm_num, by decide⟩,
   C9_time_token_percent "Encoding to H265..." 10 false
     "frame=1 time=00:00:05.00 bitrate=1k" 0 0 5 0 (by norm_num) (by decide)⟩

/-- C10: on the successful kill path the stop endpoint removes the
session's `task_active` entry — the very flag `start_task` sets to true —
while on the "nothing to stop" path the whole state, the session flag
included, is left unchanged. -/
theorem C10_task_active_frame :
    (∀ (s : ServerState) (p : ProcHandle),
      s.current_process = some p → p.alive = true →
      (stop_encode s).1.task_active = none) ∧
    (∀ s : ServerState,
      (s.current_process = none ∨
        ∃ p, s.current_process = some p ∧ p.alive = false) →
      (stop_encode s).1 = s) ∧
    (∀ s : ServerState, (start_task_session s).task_active = some true) := by
  refine ⟨?_, ?_, fun s => rfl⟩
  · intro s p hreg halive
    simp [stop_encode, hreg, halive]
  · intro s h
    rcases h with h | ⟨p, hp, hal⟩
    · simp [stop_encode, h]
    · simp [stop_encode, hp, hal]

/-- C10, witness. -/
theorem C10_task_active_frame_witness :
    ((⟨some ⟨true⟩, some true⟩ : ServerState).current_process = some ⟨true⟩ ∧
      (⟨true⟩ : ProcHandle).alive = true ∧
      (stop_encode ⟨some ⟨true⟩, some true⟩).1.task_active = none) ∧
    ((⟨none, some true⟩ : ServerState).current_process = none ∧
      (stop_encode ⟨none, some true⟩).1 = ⟨none, some true⟩) ∧
    (start_task_session ⟨none, none⟩).task_active = some true :=
  ⟨⟨rfl, rfl, C10_task_active_frame.1 ⟨some ⟨true⟩, some true⟩ ⟨true⟩ rfl rfl⟩,
   ⟨rfl, C10_task_active_frame.2.1 ⟨none, some true⟩ (Or.inl rfl)⟩,
   C10_task_active_frame.2.2 ⟨none, none⟩⟩

/-- The Pixeldrain success `log` event is not terminal: its log text has
the fixed prefix `Success! Link: `, longer than the 4-character sentinel,
and it carries no error key. -/
theorem successLog_nonterminal (fid : Option String) :
    ({ log := some ("Success! Link: " ++ ("https://pixeldrain.com/u/" ++ pyStrOpt fid)),
       final_url := some ("https://pixeldrain.com/u/" ++ pyStrOpt fid) } : Event).isTerminal
      = false := by
  have h := append_ne_done "Success! Link: "
    ("https://pixeldrain.com/u/" ++ pyStrOpt fid) (by decide)
  have hb : (some ("Success! Link: " ++ ("https://pixeldrain.com/u/" ++ pyStrOpt fid)) ==
      some "DONE") = false := by
    rw [beq_eq_false_iff_ne]
    intro hc
    exact h (Option.some.inj hc)
  simp [Event.isTerminal, Event.isDone, Event.isError, hb]

/-- C3, counterexample: `encode_file` with codec `none` and both
`upload_pixeldrain` and `upload_gofile` set, all steps succeeding, pushes
two `DONE` sentinels — and the first (index 6) falls between the
Pixeldrain block and the Gofile stage that follows it (index 7), i.e. a
terminal `DONE` appears between the upload stages, not only after them. -/
theorem C3_counterexample :
    countDone (encode_file_events "none" "crf" "" "" "" true "" false
      true false true "out.mkv" encodeChainOkEnv) = 2 ∧
    (encode_file_events "none" "crf" "" "" "" true "" false
      true false true "out.mkv" encodeChainOkEnv)[6]? = some doneEvent ∧
    (encode_file_events "none" "crf" "" "" "" true "" false
      true false true "out.mkv" encodeChainOkEnv)[7]? =
      some { stage := some "Getting Gofile upload server...", percent := some 10 } := by
  refine ⟨by decide, by decide, by decide⟩

/-- C3, amended: each upload helper pushes its own `DONE` in its
`finally` block, so when several upload sub-steps are chained a `DONE`
appears after each of them — between the upload stages, not only at the
end (see the counterexample).  What does hold is the single-upload case:
when the primary operation succeeds and exactly one upload flag is set,
the chained invocation pushes exactly one `DONE` (and exactly one
terminal event), and it is the last event pushed. -/
theorem C3_single_upload_chain (duration : ℚ) (lines : List String)
    (fid msg : Option String) (fsE : FourStreamEnv) (gfE : GofileEnv)
    (attempt : List Event) (total : ℤ) (chunks : List ℕ)
    (hlines : ∀ l ∈ lines, ¬(pyStrip l = "DONE"))
    (hatt : ∀ e ∈ attempt, e.isTerminal = false) :
    (countDone (encodeSingleUploadRun duration lines fid msg fsE gfE) = 1 ∧
     countTerminal (encodeSingleUploadRun duration lines fid msg fsE gfE) = 1 ∧
     (encodeSingleUploadRun duration lines fid msg fsE gfE).getLast? = some doneEvent) ∧
    (countDone (directSingleUploadRun attempt total chunks fid msg gfE) = 1 ∧
     countTerminal (directSingleUploadRun attempt total chunks fid msg gfE) = 1 ∧
     (directSingleUploadRun attempt total chunks fid msg gfE).getLast? = some doneEvent) := by
  have hEshape : encodeSingleUploadRun duration lines fid msg fsE gfE =
    { stage := some "Initializing encoding...", percent := some 0 } ::
    { stage := some "Encoding to H265...", percent := some 0 } ::
    (((lines.flatMap (encode_line_events "Encoding to H265..." duration false) ++
       [{ stage := some "✅ Done!", percent := some 100,
          log := some "H265 encoding complete." }]) ++
      ({ stage := some ("Uploading \x27out.mkv\x27 to Pixeldrain..."), percent := some 10 } ::
       { stage := some "Sending data...", percent := some 50 } ::
       { stage := some "✅ Pixeldrain Upload Complete!", percent := some 100 } ::
       { log := some ("Success! Link: " ++ ("https://pixeldrain.com/u/" ++ pyStrOpt fid)),
         final_url := some ("https://pixeldrain.com/u/" ++ pyStrOpt fid) } ::
       doneEvent :: [])) ++ []) := rfl
  have hE2 : encodeSingleUploadRun duration lines fid msg fsE gfE =
    ({ stage := some "Initializing encoding...", percent := some 0 } ::
     { stage := some "Encoding to H265...", percent := some 0 } ::
     (lines.flatMap (encode_line_events "Encoding to H265..." duration false) ++
      [{ stage := some "✅ Done!", percent := some 100,
         log := some "H265 encoding complete." },
       { stage := some ("Uploading \x27out.mkv\x27 to Pixeldrain..."), percent := some 10 },
       { stage := some "Sending data...", percent := some 50 },
       { stage := some "✅ Pixeldrain Upload Complete!", percent := some 100 },
       { log := some ("Success! Link: " ++ ("https://pixeldrain.com/u/" ++ pyStrOpt fid)),
         final_url := some ("https://pixeldrain.com/u/" ++ pyStrOpt fid) }])) ++
    [doneEvent] := by
    rw [hEshape]
    simp [List.append_assoc]
  have hPE : ∀ e' ∈ ({ stage := some "Initializing encoding...", percent := some 0 } ::
     { stage := some "Encoding to H265...", percent := some 0 } ::
     (lines.flatMap (encode_line_events "Encoding to H265..." duration false) ++
      [{ stage := some "✅ Done!", percent := some 100,
         log := some "H265 encoding complete." },
       { stage := some ("Uploading \x27out.mkv\x27 to Pixeldrain..."), percent := some 10 },
       { stage := some "Sending data...", percent := some 50 },
       { stage := some "✅ Pixeldrain Upload Complete!", percent := some 100 },
       { log := some ("Success! Link: " ++ ("https://pixeldrain.com/u/" ++ pyStrOpt fid)),
         final_url := some ("https://pixeldrain.com/u/" ++ pyStrOpt fid) }]) : List Event),
      e'.isTerminal = false := by
    intro e' he'
    rcases List.mem_cons.mp he' with h | he'
    · subst h; decide
    rcases List.mem_cons.mp he' with h | he'
    · subst h; decide
    rcases List.mem_append.mp he' with h | h
    · rcases List.mem_flatMap.mp h with ⟨l, hl, hel⟩
      exact encode_line_events_nonterminal _ _ _ (hlines l hl) e' hel
    · rcases List.mem_cons.mp h with h1 | h
      · subst h1; decide
      rcases List.mem_cons.mp h with h1 | h
      · subst h1; decide
      rcases List.mem_cons.mp h with h1 | h
      · subst h1; decide
      rcases List.mem_cons.mp h with h1 | h
      · subst h1; decide
      rcases List.mem_cons.mp h with h1 | h
      · subst h1; exact successLog_nonterminal fid
      · simp at h
  have hDshape : directSingleUploadRun attempt total chunks fid msg gfE =
    { stage := some "Starting direct download...", percent := some 0 } ::
    (((((attempt ++ direct_download_chunk_events total chunks) ++
        [{ stage := some "✅ Download complete!", percent := some 100 }]) ++
       ({ stage := some ("Uploading \x27d.bin\x27 to Pixeldrain..."), percent := some 10 } ::
        { stage := some "Sending data...", percent := some 50 } ::
        { stage := some "✅ Pixeldrain Upload Complete!", percent := some 100 } ::
        { log := some ("Success! Link: " ++ ("https://pixeldrain.com/u/" ++ pyStrOpt fid)),
          final_url := some ("https://pixeldrain.com/u/" ++ pyStrOpt fid) } ::
        doneEvent :: [])) ++ []) ++ []) := rfl
  have hD2 : directSingleUploadRun attempt total chunks fid msg gfE =
    ({ stage := some "Starting direct download...", percent := some 0 } ::
     (attempt ++ (direct_download_chunk_events total chunks ++
      [{ stage := some "✅ Download complete!", percent := some 100 },
       { stage := some ("Uploading \x27d.bin\x27 to Pixeldrain..."), percent := some 10 },
       { stage := some "Sending data...", percent := some 50 },
       { stage := some "✅ Pixeldrain Upload Complete!", percent := some 100 },
       { log := some ("Success! Link: " ++ ("https://pixeldrain.com/u/" ++ pyStrOpt fid)),
         final_url := some ("https://pixeldrain.com/u/" ++ pyStrOpt fid) }]))) ++
    [doneEvent] := by
    rw [hDshape]
    simp [List.append_assoc]
  have hPD : ∀ e' ∈ ({ stage := some "Starting direct download...", percent := some 0 } ::
     (attempt ++ (direct_download_chunk_events total chunks ++
      [{ stage := some "✅ Download complete!", percent := some 100 },
       { stage := some ("Uploading \x27d.bin\x27 to Pixeldrain..."), percent := some 10 },
       { stage := some "Sending data...", percent := some 50 },
       { stage := some "✅ Pixeldrain Upload Complete!", percent := some 100 },
       { log := some ("Success! Link: " ++ ("https://pixeldrain.com/u/" ++ pyStrOpt fid)),
         final_url := some ("https://pixeldrain.com/u/" ++ pyStrOpt fid) }])) : List Event),
      e'.isTerminal = false := by
    intro e' he'
    rcases List.mem_cons.mp he' with h | he'
    · subst h; decide
    rcases List.mem_append.mp he' with h | he'
    · exact hatt e' h
    rcases List.mem_append.mp he' with h | h
    · exact chunkLoop_nonterminal total 0 chunks e' h
    · rcases List.mem_cons.mp h with h1 | h
      · subst h1; decide
      rcases List.mem_cons.mp h with h1 | h
      · subst h1; decide
      rcases List.mem_cons.mp h with h1 | h
      · subst h1; decide
      rcases List.mem_cons.mp h with h1 | h
      · subst h1; decide
      rcases List.mem_cons.mp h with h1 | h
      · subst h1; exact successLog_nonterminal fid
      · simp at h
  refine ⟨⟨?_, ?_, ?_⟩, ⟨?_, ?_, ?_⟩⟩
  · rw [hE2, countDone_append, countDone_eq_zero_of_nonterminal _ hPE]
    decide
  · rw [hE2, countTerminal_append, countTerminal_eq_zero_of_nonterminal _ hPE]
    decide
  · rw [hE2]
    exact List.getLast?_concat _
  · rw [hD2, countDone_append, countDone_eq_zero_of_nonterminal _ hPD]
    decide
  · rw [hD2, countTerminal_append, countTerminal_eq_zero_of_nonterminal _ hPD]
    decide
  · rw [hD2]
    exact List.getLast?_concat _

/-- C3, witness. -/
theorem C3_single_upload_chain_witness :
    ((∀ l ∈ ["frame=1 time=00:00:05.00"], ¬(pyStrip l = "DONE")) ∧
     (∀ e ∈ [({ log := some "Connecting to example.com..." } : Event)],
        e.isTerminal = false)) ∧
    (countDone (encodeSingleUploadRun 10 ["frame=1 time=00:00:05.00"]
        (some "abc123") none fsNoKeyEnv gfOkEnv) = 1 ∧
     countTerminal (encodeSingleUploadRun 10 ["frame=1 time=00:00:05.00"]
        (some "abc123") none fsNoKeyEnv gfOkEnv) = 1 ∧
     (encodeSingleUploadRun 10 ["frame=1 time=00:00:05.00"]
        (some "abc123") none fsNoKeyEnv gfOkEnv).getLast? = some doneEvent) ∧
    (countDone (directSingleUploadRun [{ log := some "Connecting to example.com..." }]
        2 [1, 1] (some "abc123") none gfOkEnv) = 1 ∧
     countTerminal (directSingleUploadRun [{ log := some "Connecting to example.com..." }]
        2 [1, 1] (some "abc123") none gfOkEnv) = 1 ∧
     (directSingleUploadRun [{ log := some "Connecting to example.com..." }]
        2 [1, 1] (some "abc123") none gfOkEnv).getLast? = some doneEvent) :=
  have h := C3_single_upload_chain 10 ["frame=1 time=00:00:05.00"]
    (some "abc123") none fsNoKeyEnv gfOkEnv
    [{ log := some "Connecting to example.com..." }] 2 [1, 1]
    (by decide) (by decide)
  ⟨⟨by decide, by decide⟩, h.1, h.2⟩

/-- C5, counterexample: a direct download whose single received chunk
(3 bytes) exceeds the advertised content-length (2 bytes) pushes a
percent of 150, and the streaming endpoint delivers it to the client
verbatim — a delivered percent outside `[0, 100]`, with no clamping
anywhere between the producer and the client. -/
theorem C5_counterexample :
    generate ((direct_download_chunk_events 2 [3]).map Pop.ev) =
      [{ stage := some "Downloading...", percent := some 150 }] ∧
    ¬((150 : ℚ) ≤ 100) := by
  constructor
  · have h1 : direct_download_chunk_events 2 [3] =
        [{ stage := some "Downloading...",
           percent := some (((((0 : ℤ) + ((3 : ℕ) : ℤ)) : ℤ) : ℚ) / (((2 : ℤ)) : ℚ) * 100) }] :=
      rfl
    have h2 : (((((0 : ℤ) + ((3 : ℕ) : ℤ)) : ℤ) : ℚ) / (((2 : ℤ)) : ℚ) * 100) = (150 : ℚ) := by
      push_cast
      norm_num
    rw [h1, h2]
    rfl
  · norm_num

/-- C5, amended: the streaming endpoint applies no clamping — every
event it delivers is forwarded verbatim from the queue (first
conjunct).  Clamping exists only at one producer: the time-based encode
percents are computed through `min(100, …)` and always lie in `[0, 100]`
(second conjunct); the direct-download percents are unclamped and may
exceed 100 (see the counterexample). -/
theorem C5_percent_not_clamped_at_endpoint :
    (∀ (pops : List Pop) (e : Event), e ∈ generate pops → Pop.ev e ∈ pops) ∧
    (∀ (st : String) (d : ℚ) (vm : Bool) (line : String) (e : Event) (p : ℚ),
      e ∈ encode_line_events st d vm line → e.percent = some p →
      0 ≤ p ∧ p ≤ 100) := by
  constructor
  · intro pops
    induction pops with
    | nil => intro e he; simp [generate] at he
    | cons hd tl ih =>
      intro e he
      cases hd with
      | timeout => simp [generate] at he
      | ev e0 =>
        simp only [generate] at he
        rcases List.mem_cons.mp he with h1 | h2
        · subst h1; exact List.mem_cons_self _ _
        · by_cases ht : e0.isTerminal
          · rw [if_pos ht] at h2; simp at h2
          · rw [if_neg ht] at h2
            exact List.mem_cons_of_mem _ (ih e h2)
  · intro st d vm line e p he hp
    unfold encode_line_events at he
    rcases List.mem_cons.mp he with h1 | h2
    · subst h1; simp at hp
    · by_cases hd : (0 : ℚ) < d
      · rw [if_pos hd] at h2
        rcases List.mem_append.mp h2 with h3 | h4
        · cases hma : findTimeToken line.toList with
          | none => rw [hma] at h3; simp at h3
          | some r =>
            rw [hma] at h3
            obtain ⟨hh, hm, hs, hcc⟩ := r
            simp only [List.mem_singleton] at h3
            subst h3
            simp only [Option.some.injEq] at hp
            subst hp
            constructor
            · apply le_min
              · norm_num
              · positivity
            · exact min_le_left _ _
        · cases vm with
          | false => simp at h4
          | true =>
            simp only [if_true] at h4
            cases hmv : findVmafScore line.toList with
            | none => rw [hmv] at h4; simp at h4
            | some sc =>
              rw [hmv] at h4
              simp only [List.mem_singleton] at h4
              subst h4
              simp at hp
      · rw [if_neg hd] at h2
        simp at h2

/-- C5, witness. -/
theorem C5_percent_not_clamped_at_endpoint_witness :
    (doneEvent ∈ generate [Pop.ev doneEvent] ∧
      Pop.ev doneEvent ∈ [Pop.ev doneEvent]) ∧
    (({ stage := some "Encoding to H265...",
        percent := some (min 100 (((((0 : ℕ) : ℚ) * 3600 + ((0 : ℕ) : ℚ) * 60 +
          ((5 : ℕ) : ℚ) + ((0 : ℕ) : ℚ) / 100) / 10) * 100)) } : Event) ∈
        encode_line_events "Encoding to H265..." 10 false "time=00:00:05.00" ∧
      (0 : ℚ) ≤ min 100 (((((0 : ℕ) : ℚ) * 3600 + ((0 : ℕ) : ℚ) * 60 +
          ((5 : ℕ) : ℚ) + ((0 : ℕ) : ℚ) / 100) / 10) * 100) ∧
      min 100 (((((0 : ℕ) : ℚ) * 3600 + ((0 : ℕ) : ℚ) * 60 +
          ((5 : ℕ) : ℚ) + ((0 : ℕ) : ℚ) / 100) / 10) * 100) ≤ 100) := by
  have he : ({ stage := some "Encoding to H265...",
               percent := some (min 100 (((((0 : ℕ) : ℚ) * 3600 + ((0 : ℕ) : ℚ) * 60 +
                 ((5 : ℕ) : ℚ) + ((0 : ℕ) : ℚ) / 100) / 10) * 100)) } : Event) ∈
      encode_line_events "Encoding to H265..." 10 false "time=00:00:05.00" := by
    unfold encode_line_events
    rw [show findTimeToken ("time=00:00:05.00").toList =
          some ((0 : ℕ), (0 : ℕ), (5 : ℕ), (0 : ℕ)) from by decide,
        if_pos (by norm_num : (0 : ℚ) < 10)]
    simp
  exact ⟨⟨by decide,
    C5_percent_not_clamped_at_endpoint.1 [Pop.ev doneEvent] doneEvent (by decide)⟩,
   ⟨he,
    C5_percent_not_clamped_at_endpoint.2 "Encoding to H265..." 10 false
      "time=00:00:05.00"
      { stage := some "Encoding to H265...",
        percent := some (min 100 (((((0 : ℕ) : ℚ) * 3600 + ((0 : ℕ) : ℚ) * 60 +
          ((5 : ℕ) : ℚ) + ((0 : ℕ) : ℚ) / 100) / 10) * 100)) }
      (min 100 (((((0 : ℕ) : ℚ) * 3600 + ((0 : ℕ) : ℚ) * 60 +
          ((5 : ℕ) : ℚ) + ((0 : ℕ) : ℚ) / 100) / 10) * 100))
      he rfl⟩⟩
